import Mathlib

/-!
Shallow embedding of the orchestration core of the `ai-telegram-bot`
repository (files `src/ai.ts` and `src/mcp_client.ts`), together with
theorems checking the natural-language specification against it.

JavaScript strings are modelled as `List Char`; machine integers and
`Date.now()` timestamps as `Int`; promises that either resolve or reject
as `Except` values; network effects as explicit outcome parameters.
-/

namespace Bot

/-- Convert a Lean string literal to the `List Char` representation used
throughout the model. -/
def str (s : String) : List Char := s.toList

/-- Check that `pat` occurs at the start of `s` (helper for substring search). -/
def strStarts : List Char → List Char → Bool
  | [], _ => true
  | _ :: _, [] => false
  | p :: ps, c :: cs => p == c && strStarts ps cs

/-- Model of JavaScript `s.includes(pat)` (is `pat` a contiguous substring
of `s`); the first argument is the pattern. -/
def strHasSub : List Char → List Char → Bool
  | pat, [] => pat.isEmpty
  | pat, c :: cs => strStarts pat (c :: cs) || strHasSub pat cs

/-- Model of `s.includes(sub)` with the JS receiver first. -/
def jsIncludes (s sub : List Char) : Bool := strHasSub sub s

/-- ASCII lower-casing of one character, as `toLowerCase` acts on the
ASCII keywords and tool names the program compares. -/
def lowerChar (c : Char) : Char :=
  if 'A' ≤ c && c ≤ 'Z' then Char.ofNat (c.toNat + 32) else c

/-- Model of JavaScript `s.toLowerCase()` (ASCII range). -/
def jsLower (s : List Char) : List Char := s.map lowerChar

/-- Whitespace test used by the model of `s.trim()`. -/
def isWsChar (c : Char) : Bool :=
  c == ' ' || c == '\n' || c == '\r' || c == '\t'

/-- Model of JavaScript `s.trim()`: strip whitespace from both ends. -/
def jsTrim (s : List Char) : List Char :=
  ((s.dropWhile isWsChar).reverse.dropWhile isWsChar).reverse

/-- Model of JavaScript `s.split("\n")`: split on newline characters,
keeping empty segments, as `String.prototype.split` does. -/
def jsSplitNl : List Char → List (List Char)
  | [] => [[]]
  | c :: cs =>
    match jsSplitNl cs with
    | [] => [[]]
    | l :: ls => if c == '\n' then [] :: l :: ls else (c :: l) :: ls

/-- JSON values, the model of the dynamically-typed payloads the program
passes around (`JSON.parse` results, tool results, RPC ids). -/
inductive JVal where
  | null : JVal
  | bool (b : Bool) : JVal
  | num (n : Int) : JVal
  | str (s : List Char) : JVal
  | arr (xs : List JVal) : JVal
  | obj (fields : List (List Char × JVal)) : JVal

/-- JavaScript truthiness of a JSON value (`0`, `""`, `false`, `null`
are falsy; arrays and objects are truthy). -/
def truthy : JVal → Bool
  | .null => false
  | .bool b => b
  | .num n => n != 0
  | .str s => !s.isEmpty
  | .arr _ => true
  | .obj _ => true

/-- JavaScript strict equality `===` on JSON values as the program uses it
for RPC ids: primitive values compare by value; two freshly parsed arrays
or objects are distinct references, hence never `===`. -/
def jsStrictEq : JVal → JVal → Bool
  | .null, .null => true
  | .bool a, .bool b => a == b
  | .num a, .num b => a == b
  | .str a, .str b => a == b
  | _, _ => false

/-- Decimal digits of a natural number (fuel-structured so that it
evaluates inside the kernel). -/
def natStrAux : Nat → Nat → List Char
  | 0, _ => []
  | fuel + 1, n =>
    if n < 10 then [Char.ofNat (n + 48)]
    else natStrAux fuel (n / 10) ++ [Char.ofNat (n % 10 + 48)]

/-- Decimal representation of a natural number. -/
def natStr (n : Nat) : List Char := natStrAux (n + 1) n

/-- Decimal representation of an integer. -/
def intStr (n : Int) : List Char :=
  if n < 0 then '-' :: natStr n.natAbs else natStr n.natAbs

/-- Escaping of one character inside a JSON string literal. -/
def escChar (c : Char) : List Char :=
  if c == '"' then ['\\', '"'] else if c == '\\' then ['\\', '\\'] else [c]

/-- Comma-separated concatenation (helper for the JSON serializer). -/
def commaSep : List (List Char) → List Char
  | [] => []
  | [x] => x
  | x :: y :: rest => x ++ ',' :: commaSep (y :: rest)

mutual

/-- Model of `JSON.stringify` on the JSON values of the model. -/
def jsonStringify : JVal → List Char
  | .null => str "null"
  | .bool true => str "true"
  | .bool false => str "false"
  | .num n => intStr n
  | .str s => '"' :: s.flatMap escChar ++ ['"']
  | .arr xs => '[' :: commaSep (jsonStringifyList xs) ++ [']']
  | .obj fs => '\x7b' :: commaSep (jsonStringifyFields fs) ++ ['\x7d']

/-- Serialize each element of a JSON array. -/
def jsonStringifyList : List JVal → List (List Char)
  | [] => []
  | v :: vs => jsonStringify v :: jsonStringifyList vs

/-- Serialize each field of a JSON object. -/
def jsonStringifyFields : List (List Char × JVal) → List (List Char)
  | [] => []
  | (k, v) :: fs =>
    ('"' :: k.flatMap escChar ++ ['"', ':'] ++ jsonStringify v) :: jsonStringifyFields fs

end

/-! ### `src/ai.ts`: models, request queue, tool selection -/

/-- A `ModelDescriptor` from `types.ts`: `interface AIModel { name; priority }`. -/
structure AIModel where
  name : List Char
  priority : Int
  deriving DecidableEq

/-- The built-in `DEFAULT_AI_MODELS` list of `ai.ts`, in priority order. -/
def DEFAULT_AI_MODELS : List AIModel :=
  [ ⟨str "ZhipuAI/GLM-4.6", 1⟩,
    ⟨str "ZhipuAI/GLM-4.5", 2⟩,
    ⟨str "MiniMax/MiniMax-M2", 3⟩,
    ⟨str "MiniMax/MiniMax-M1-80k", 4⟩,
    ⟨str "Qwen/Qwen3-Coder-480B-A35B-Instruct", 5⟩,
    ⟨str "Qwen/Qwen3-VL-235B-A22B-Instruct", 6⟩,
    ⟨str "Qwen/Qwen3-Next-80B-A3B-Instruct", 7⟩,
    ⟨str "deepseek-ai/DeepSeek-V3.2-Exp", 8⟩,
    ⟨str "deepseek-ai/DeepSeek-V3.1", 9⟩ ]

/-- The model list actually iterated by `callAIWithFallback`:
`config.aiModels && config.aiModels.length > 0 ? config.aiModels : DEFAULT_AI_MODELS`. -/
def modelsToTry (aiModels : Option (List AIModel)) : List AIModel :=
  match aiModels with
  | some l => if l.length > 0 then l else DEFAULT_AI_MODELS
  | none => DEFAULT_AI_MODELS

/-- The `MIN_INTERVAL` constant of `RequestQueue` (milliseconds). -/
def MIN_INTERVAL : Int := 2000

/-- One enqueued task of the `RequestQueue`, as the event loop sees it:
`arrival` is `Date.now()` when the task's turn in the promise chain starts;
`wakeDelay ≥ 0` is the extra real time between `arrival + waitTime` and the
`Date.now()` read after the `setTimeout` sleep (timers may fire late);
`fails` records whether the task's `fn` eventually rejects (the queue
ignores it because the chain advances through `result.catch(() => {}))`. -/
structure SchedEntry where
  arrival : Int
  wakeDelay : Int
  fails : Bool
  deriving DecidableEq

/-- Dispatch timestamp of one task, from `RequestQueue.enqueue`:
`waitTime = max(0, MIN_INTERVAL - (now - lastRequestTime))`, sleep that
long, then `lastRequestTime = Date.now()`. -/
def dispatchOf (lastRequestTime : Int) (e : SchedEntry) : Int :=
  e.arrival + max 0 (MIN_INTERVAL - (e.arrival - lastRequestTime)) + e.wakeDelay

/-- Run the whole promise chain of `RequestQueue`: every enqueued task is
dispatched in enqueue order (a rejection does not stop the chain, because
the next task is chained on `result.catch(() => {})`), and the returned
list holds each task's dispatch timestamp (its `lastRequestTime` value). -/
def runQueue (lastRequestTime : Int) : List SchedEntry → List Int
  | [] => []
  | e :: es => dispatchOf lastRequestTime e :: runQueue (dispatchOf lastRequestTime e) es

/-- Well-formedness of an event-loop schedule for the queue: each task's
continuation starts no earlier than the previous dispatch (the chain only
reaches task `i+1` after task `i`'s `fn` settles, which is at or after its
dispatch, and `Date.now()` is monotone), and timers never fire early. -/
def validSched (lastRequestTime : Int) : List SchedEntry → Bool
  | [] => true
  | e :: es =>
    lastRequestTime ≤ e.arrival && 0 ≤ e.wakeDelay &&
      validSched (dispatchOf lastRequestTime e) es

/-- The `TOOL_CATEGORIES` table of `ai.ts`: category name → keywords. -/
def TOOL_CATEGORIES : List (List Char × List (List Char)) :=
  [ (str "search", [str "search", str "web", str "google", str "bing", str "exa",
      str "perplexity", str "browse", str "internet"]),
    (str "code", [str "code", str "github", str "git", str "python",
      str "javascript", str "program", str "script"]),
    (str "data", [str "database", str "sql", str "csv", str "json", str "xml",
      str "data", str "query"]),
    (str "file", [str "file", str "read", str "write", str "download",
      str "upload", str "document"]),
    (str "image", [str "image", str "photo", str "picture", str "screenshot",
      str "visual"]),
    (str "math", [str "calculate", str "math", str "compute", str "number",
      str "formula"]),
    (str "time", [str "time", str "date", str "calendar", str "schedule",
      str "clock"]),
    (str "general", [str "get", str "fetch", str "retrieve", str "list",
      str "show"]) ]

/-- Keyword list of a category, `TOOL_CATEGORIES[cat]` (`none` when the
category name is not in the table, the JS `undefined`). -/
def categoryKeywords (cat : List Char) : Option (List (List Char)) :=
  (TOOL_CATEGORIES.find? (fun p => p.1 == cat)).map (·.2)

/-- The `selectToolCategory` function of `ai.ts`: pick every category one
of whose keywords occurs in the lower-cased message; default to
`search` and `general` when nothing matches. -/
def selectToolCategory (message : List Char) : List (List Char) :=
  let msg := jsLower message
  let selected := (TOOL_CATEGORIES.filter
    (fun p => p.2.any (fun kw => jsIncludes msg kw))).map (·.1)
  if selected.isEmpty then [str "search", str "general"] else selected

/-- An `MCPTool` as consumed by the tool filter: name, description and the
(opaque) input schema from `mcp_client.ts`. -/
structure MCPTool where
  name : List Char
  description : List Char
  inputSchema : JVal

/-- The per-tool predicate inside `filterTools`: the lower-cased name or
description contains some keyword of some selected category. -/
def toolMatchesCats (categories : List (List Char)) (tool : MCPTool) : Bool :=
  let name := jsLower tool.name
  let desc := jsLower tool.description
  categories.any fun cat =>
    match categoryKeywords cat with
    | some kws => kws.any (fun kw => jsIncludes name kw || jsIncludes desc kw)
    | none => false

/-- The `filterTools` function of `ai.ts`: keep keyword-matching tools;
if fewer than 20 remain, fall back to the catalog's first 50 entries;
otherwise cap the matches at 60. -/
def filterTools (tools : List MCPTool) (categories : List (List Char)) : List MCPTool :=
  let filtered := tools.filter (toolMatchesCats categories)
  if filtered.length < 20 then tools.take 50 else filtered.take 60

/-- A simplified tool declaration produced by `simplifyTools`: only name
and description survive; the parameter schema is the constant empty-object
schema in the source. -/
structure SimpleTool where
  name : List Char
  description : List Char
  deriving DecidableEq

/-- The `simplifyTools` function of `ai.ts`. -/
def simplifyTools (tools : List MCPTool) : List SimpleTool :=
  tools.map fun t => ⟨t.name, t.description⟩

/-! ### `src/ai.ts`: AI responses and the multi-model fallback router -/

/-- A `tool_calls` entry of an AI response: `{ id, function: { name,
arguments } }`, `arguments` being a raw JSON string. -/
structure ToolCall where
  id : List Char
  fnName : List Char
  fnArguments : List Char
  deriving DecidableEq

/-- The `error` field of an `AIResponse`: `{ message, code? }` (the
`type` field is never read by the program and is omitted). -/
structure AIErr where
  message : List Char
  code : Option (List Char)
  deriving DecidableEq

/-- The assistant message inside `choices[0]`: optional text content and
optional `tool_calls`. -/
structure ChatMsg where
  content : Option (List Char)
  tool_calls : Option (List ToolCall)
  deriving DecidableEq

/-- An `AIResponse` from the model endpoint: optional `choices` (only the
head's `message` is ever read) and optional top-level `error`. -/
structure AIResponse where
  choices : Option (List ChatMsg)
  error : Option AIErr
  deriving DecidableEq

/-- Outcome of one `callAIWithQueue` invocation: the awaited fetch either
throws (network failure, or the `!response.ok` branch that throws
`AI API错误 (status): body`) or yields a parsed `AIResponse`. -/
inductive CallOutcome where
  | thrown (msg : List Char) : CallOutcome
  | ok (resp : AIResponse) : CallOutcome
  deriving DecidableEq

/-- The response-level rate-limit test of `callAIWithFallback`:
`errorCode === "1302" || errorMsg.includes("429") || errorMsg.includes("并发")`. -/
def respRateLimited (e : AIErr) : Bool :=
  e.code == some (str "1302") || jsIncludes e.message (str "429") ||
    jsIncludes e.message (str "并发")

/-- The catch-clause rate-limit test of `callAIWithFallback`:
`errorMsg.includes("429") || errorMsg.includes("限流") || errorMsg.includes("1302")`. -/
def catchRateLimited (msg : List Char) : Bool :=
  jsIncludes msg (str "429") || jsIncludes msg (str "限流") ||
    jsIncludes msg (str "1302")

/-- The decorated error thrown for a non-rate-limited response error:
`` `模型 ${model.name} 错误: ${errorMsg}` ``. -/
def fatalRespMsg (name msg : List Char) : List Char :=
  str "模型 " ++ name ++ str " 错误: " ++ msg

/-- The error remembered when a response error is classified rate-limited:
`` `模型 ${model.name} 限流: ${errorMsg}` ``. -/
def limitRespMsg (name msg : List Char) : List Char :=
  str "模型 " ++ name ++ str " 限流: " ++ msg

/-- What one loop iteration of `callAIWithFallback` does with one model's
call outcome: succeed, continue to the next model remembering `lastError`,
or abort the whole loop with a fatal error. -/
inductive StepResult where
  | success (r : AIResponse) : StepResult
  | continueWith (err : List Char) : StepResult
  | abort (err : List Char) : StepResult
  deriving DecidableEq

/-- Classification of one model attempt, straight from the body of the
`for` loop of `callAIWithFallback`: a response error is tested with
`respRateLimited`; otherwise it is rethrown decorated and the catch clause
retests the decorated text with `catchRateLimited`; a thrown error is
tested with `catchRateLimited`; an error-free response succeeds. -/
def stepModel (name : List Char) : CallOutcome → StepResult
  | .thrown msg =>
    if catchRateLimited msg then .continueWith msg else .abort msg
  | .ok r =>
    match r.error with
    | none => .success r
    | some e =>
      if respRateLimited e then .continueWith (limitRespMsg name e.message)
      else if catchRateLimited (fatalRespMsg name e.message) then
        .continueWith (fatalRespMsg name e.message)
      else .abort (fatalRespMsg name e.message)

/-- Rate-limit signal of one attempt (HTTP 429 text, code `1302`, or
rate-limit wording), exactly when the loop advances to the next model. -/
def rateLimitSignal (name : List Char) (o : CallOutcome) : Bool :=
  match o with
  | .thrown msg => catchRateLimited msg
  | .ok r =>
    match r.error with
    | none => false
    | some e => respRateLimited e || catchRateLimited (fatalRespMsg name e.message)

/-- The `lastError` message remembered when an attempt is rate-limited. -/
def contMsg (name : List Char) : CallOutcome → List Char
  | .thrown msg => msg
  | .ok r =>
    match r.error with
    | none => []
    | some e =>
      if respRateLimited e then limitRespMsg name e.message
      else fatalRespMsg name e.message

/-- The aggregate error thrown when every model was exhausted:
`` `所有AI模型都不可用。最后错误: ${lastError?.message || "未知"}` ``. -/
def exhaustedMsg (lastError : Option (List Char)) : List Char :=
  str "所有AI模型都不可用。最后错误: " ++
    (match lastError with
     | some m => if m.isEmpty then str "未知" else m
     | none => str "未知")

/-- The `for` loop of `callAIWithFallback` over the model list, each model
paired with the outcome its `callAIWithQueue` call would have. Returns
the names of the models actually attempted, in order, and the overall
result (`.ok` = the returned response, `.error` = the thrown error). -/
def fallbackRun (lastError : Option (List Char)) :
    List (AIModel × CallOutcome) → List (List Char) × Except (List Char) AIResponse
  | [] => ([], .error (exhaustedMsg lastError))
  | (m, o) :: rest =>
    match stepModel m.name o with
    | .success r => ([m.name], .ok r)
    | .abort e => ([m.name], .error e)
    | .continueWith e =>
      let t := fallbackRun (some e) rest
      (m.name :: t.1, t.2)

/-- The `callAIWithFallback` function: pick the model list from the
configuration and run the fallback loop with no remembered error. -/
def callAIWithFallback (aiModels : Option (List AIModel))
    (outcomes : List CallOutcome) :
    List (List Char) × Except (List Char) AIResponse :=
  fallbackRun none ((modelsToTry aiModels).zip outcomes)

/-! ### `src/mcp_client.ts`: SSE transport parser, `sendRequest`, `listTools`

The repository's `mcp_client.ts` holds two revisions of the client; the
later one (POST with GET fallback, permissive id matching) is the one the
rest of the program and the specification describe, and is what is
embedded here. -/

/-- A JSON-RPC error object `{ code, message }` of an `MCPResponse`. -/
structure RpcErr where
  code : Int
  message : List Char
  deriving DecidableEq

/-- A parsed JSON-RPC response frame (`MCPResponse`): `id` is absent when
the JSON carries no `id` member; `result` is the raw JSON payload. -/
structure MCPFrame where
  id : Option JVal
  result : Option JVal
  error : Option RpcErr

/-- The id test of the second `sendRequest` revision:
`!parsed.id || parsed.id === request.id` — accept when the parsed id is
absent or falsy, or strictly equal to the request id. -/
def sseIdMatches (parsedId : Option JVal) (reqId : JVal) : Bool :=
  match parsedId with
  | none => true
  | some v => !truthy v || jsStrictEq v reqId

/-- Handling of one SSE line inside `sendRequest`: a line counts only if
it starts with `"data: "`; the rest is trimmed; empty and `"[DONE]"`
payloads are skipped; the payload is `JSON.parse`d (`parse` models
`JSON.parse`, `none` = throw, which the code ignores); a frame is kept
when `sseIdMatches` accepts its id. -/
def sseLine (parse : List Char → Option MCPFrame) (reqId : JVal)
    (line : List Char) : Option MCPFrame :=
  if strStarts (str "data: ") line then
    let data := jsTrim (line.drop 6)
    if data ≠ [] ∧ data ≠ str "[DONE]" then
      match parse data with
      | some parsed => if sseIdMatches parsed.id reqId then some parsed else none
      | none => none
    else none
  else none

/-- The chunk loop of `sendRequest`: each network chunk is split on
newlines **by itself** (`chunk.split("\n")` — there is no carry-over
buffer between chunks) and the first accepted frame ends the loop. -/
def sseDecode (parse : List Char → Option MCPFrame) (reqId : JVal) :
    List (List Char) → Option MCPFrame
  | [] => none
  | chunk :: rest =>
    match (jsSplitNl chunk).findSome? (sseLine parse reqId) with
    | some r => some r
    | none => sseDecode parse reqId rest

/-- Outcome of one `fetch` as `sendRequest` sees it: either the promise
rejects, or a response arrives with an HTTP status and a body that is a
sequence of decoded text chunks (`none` = `response.body` unreadable). -/
inductive FetchOutcome where
  | netError (msg : List Char) : FetchOutcome
  | response (status : Nat) (statusText : List Char)
      (body : Option (List (List Char))) : FetchOutcome

/-- The `response.ok` predicate of the Fetch API (status 200–299). -/
def fetchOk (status : Nat) : Bool := 200 ≤ status && status ≤ 299

/-- The response `sendRequest` ends up reading: the POST response, except
that a POST status of 404, 405 or 400 retries once with the GET encoding. -/
def pickResponse (post get : FetchOutcome) : FetchOutcome :=
  match post with
  | .netError m => .netError m
  | .response st stx body =>
    if !fetchOk st && (st == 404 || st == 405 || st == 400) then get
    else .response st stx body

/-- The `HTTP ${status}: ${statusText}` error text. -/
def httpErrMsg (status : Nat) (statusText : List Char) : List Char :=
  str "HTTP " ++ natStr status ++ str ": " ++ statusText

/-- The body of `sendRequest` (second revision) after transport selection:
fail on a rejected fetch, a non-ok status, an unreadable body, or a stream
that ends with no accepted frame; otherwise return the matched frame. -/
def sendRequestCore (parse : List Char → Option MCPFrame) (reqId : JVal)
    (post get : FetchOutcome) : Except (List Char) MCPFrame :=
  match pickResponse post get with
  | .netError m => .error m
  | .response st stx body =>
    if !fetchOk st then .error (httpErrMsg st stx)
    else
      match body with
      | none => .error (str "无法读取响应流")
      | some chunks =>
        match sseDecode parse reqId chunks with
        | some frame => .ok frame
        | none => .error (str "未收到有效的MCP响应")

/-- The full `sendRequest` with its 30-second `Promise.race` guard:
`timedOut = true` means the timeout promise won the race. -/
def sendRequestModel (parse : List Char → Option MCPFrame) (reqId : JVal)
    (post get : FetchOutcome) (timedOut : Bool) : Except (List Char) MCPFrame :=
  if timedOut then .error (str "MCP请求超时（30000ms）")
  else sendRequestCore parse reqId post get

/-- Field lookup in a JSON object (reading a property in JS). -/
def jlookup (fields : List (List Char × JVal)) (k : List Char) : Option JVal :=
  (fields.find? (fun p => p.1 == k)).map (·.2)

/-- Read one element of the `tools` array as an `MCPTool` (`name`,
`description`, `inputSchema`), as the `result as { tools?: MCPTool[] }`
cast promises each element to be shaped. -/
def toolOfJVal : JVal → Option MCPTool
  | .obj fs =>
    match jlookup fs (str "name"), jlookup fs (str "description") with
    | some (.str n), some (.str d) =>
      some ⟨n, d, (jlookup fs (str "inputSchema")).getD .null⟩
    | _, _ => none
  | _ => none

/-- The `result?.tools || []` read of `listTools`: the `tools` array of
the result object, or the empty catalog. -/
def toolsOfResult : Option JVal → List MCPTool
  | some (.obj fs) =>
    match jlookup fs (str "tools") with
    | some (.arr xs) => xs.filterMap toolOfJVal
    | _ => []
  | _ => []

/-- The `listTools` method: on a `sendRequest` failure, or an RPC-level
`error` member in the matched response (which the method turns into a
thrown `MCP错误`), the catch clause returns the empty catalog; otherwise
the `tools` array of the result is returned. The method never rethrows. -/
def listToolsModel (outcome : Except (List Char) MCPFrame) : List MCPTool :=
  match outcome with
  | .error _ => []
  | .ok resp =>
    match resp.error with
    | some _ => []
    | none => toolsOfResult resp.result

/-- The `callTool` method: a `sendRequest` failure propagates; an
RPC-level error becomes a thrown `工具调用失败: message`; otherwise the
raw `result` payload is returned. -/
def callToolModel (outcome : Except (List Char) MCPFrame) : Except (List Char) JVal :=
  match outcome with
  | .error e => .error e
  | .ok resp =>
    match resp.error with
    | some e => .error (str "工具调用失败: " ++ e.message)
    | none => .ok (resp.result.getD .null)

/-! ### `src/ai.ts`: the conversation orchestrator `getAIResponse` -/

/-- One message of a chat request body. Absent members are `none`:
the user turn carries only `content`; the assistant turn echoes the model
content (`assistantMessage.content || null`, so an empty string becomes
`null`) and the full `tool_calls` array; the tool turn carries
`tool_call_id` and the serialized tool result. -/
structure ReqMsg where
  role : List Char
  content : Option (List Char)
  tool_call_id : Option (List Char)
  tool_calls : Option (List ToolCall)

/-- A chat request body as built by `getAIResponse` (the `temperature`
member is the constant `0.7` in the source and is not tracked). -/
structure ReqBody where
  messages : List ReqMsg
  tools : Option (List SimpleTool)

/-- The environment of one `getAIResponse` call: the user message and the
outcome every external effect would have (the tool-discovery transport,
the two router calls, `JSON.parse` on the tool-call arguments, and the
tool invocation). -/
structure OrchEnv where
  userMessage : List Char
  listOutcome : Except (List Char) MCPFrame
  firstOutcome : Except (List Char) AIResponse
  parseArgs : List Char → Option JVal
  toolOutcome : Except (List Char) JVal
  secondOutcome : Except (List Char) AIResponse

/-- Observable trace of one orchestration run: the tool invocations made
through the protocol client (name and parsed arguments) and the second
request body, when one was submitted. -/
structure OrchTrace where
  invoked : List (List Char × JVal)
  secondBody : Option ReqBody

/-- The user turn `{ role: "user", content: userMessage }`. -/
def userMsg (userMessage : List Char) : ReqMsg :=
  ⟨str "user", some userMessage, none, none⟩

/-- The assistant echo turn of the second request:
`{ role: "assistant", content: assistantMessage.content || null,
tool_calls: assistantMessage.tool_calls }`. -/
def assistantEcho (am : ChatMsg) : ReqMsg :=
  ⟨str "assistant",
   (match am.content with
    | some s => if s.isEmpty then none else some s
    | none => none),
   none, am.tool_calls⟩

/-- The tool turn of the second request: `{ role: "tool", tool_call_id:
toolCall.id, content: JSON.stringify(toolResult) }`. -/
def toolMsg (tc : ToolCall) (toolResult : JVal) : ReqMsg :=
  ⟨str "tool", some (jsonStringify toolResult), some tc.id, none⟩

/-- The tool result fed back to the model: the invocation's value on
success, and the structured payload `{ error: message }` when the
invocation failed (`message` defaulting to `"工具调用失败"` mirrors the
non-`Error` fallback of the catch clause). -/
def toolResultOf (toolOutcome : Except (List Char) JVal) : JVal :=
  match toolOutcome with
  | .ok v => v
  | .error e => .obj [(str "error", .str e)]

/-- Extraction of `choices?.[0]?.message` from an `AIResponse`. -/
def headMsg (r : AIResponse) : Option ChatMsg :=
  r.choices.bind List.head?

/-- Extraction of `choices?.[0]?.message?.content`. -/
def headContent (r : AIResponse) : Option (List Char) :=
  (headMsg r).bind ChatMsg.content

/-- Truthiness of an optional string (`undefined`, `null` and `""` are
falsy), as the `if (!finalText)` and `if (!replyText)` guards test it. -/
def truthyStr : Option (List Char) → Bool
  | none => false
  | some s => !s.isEmpty

/-- The tail of the tool path of `mainTask`: submit the second request and
extract `finalText`; a falsy text throws, otherwise the trimmed text is
the final reply. -/
def secondPhase (secondOutcome : Except (List Char) AIResponse) :
    Except (List Char) (List Char) :=
  match secondOutcome with
  | .error e => .error e
  | .ok secondData =>
    match headContent secondData with
    | some s => if s.isEmpty then .error (str "无法从AI第二次响应中提取文本")
                else .ok (jsTrim s)
    | none => .error (str "无法从AI第二次响应中提取文本")

/-- The second request body built in 步骤 7 of `getAIResponse`. -/
def secondBodyOf (userMessage : List Char) (am : ChatMsg) (tc : ToolCall)
    (toolResult : JVal) (tools : List SimpleTool) : ReqBody :=
  ⟨[userMsg userMessage, assistantEcho am, toolMsg tc toolResult], some tools⟩

/-- The `mainTask` of `getAIResponse`, returning the run's trace and its
settlement (`.ok` = resolved reply text, `.error` = rejection, which the
outer catch later converts to the fallback string). Follows the source:
discover tools, filter and simplify them, build the first request, call
the router; when the first reply carries `tool_calls`, parse the first
call's arguments (`JSON.parse` outside any try — a parse throw rejects the
whole task), invoke the tool (its failure is caught and becomes the
structured error payload), build the second request and finish with the
second reply's text; otherwise the first reply's text is final. -/
def mainTaskRun (env : OrchEnv) : OrchTrace × Except (List Char) (List Char) :=
  let mcpTools := listToolsModel env.listOutcome
  let categories := selectToolCategory env.userMessage
  let filteredTools := filterTools mcpTools categories
  let zhipuTools := simplifyTools filteredTools
  match env.firstOutcome with
  | .error e => (⟨[], none⟩, .error e)
  | .ok data =>
    match headMsg data with
    | some am =>
      match am.tool_calls with
      | some (tc :: _tcs) =>
        (match env.parseArgs tc.fnArguments with
         | none => (⟨[], none⟩, .error (str "SyntaxError: JSON.parse"))
         | some toolArgs =>
           let toolResult := toolResultOf env.toolOutcome
           let body := secondBodyOf env.userMessage am tc toolResult zhipuTools
           (⟨[(tc.fnName, toolArgs)], some body⟩, secondPhase env.secondOutcome))
      | _ =>
        (⟨[], none⟩,
         match am.content with
         | some s => if s.isEmpty then .error (str "无法从AI响应中提取回复文本")
                     else .ok (jsTrim s)
         | none => .error (str "无法从AI响应中提取回复文本"))
    | none => (⟨[], none⟩, .error (str "无法从AI响应中提取回复文本"))

/-- The fixed user-facing fallback reply of `getAIResponse`. -/
def fallbackReply : List Char := str "抱歉，AI服务响应超时或不可用。请稍后再试。"

/-- The full `getAIResponse`: race `mainTask` against the 60-second
timeout (`timedOut = true` means the timeout won), and convert any
rejection into the fixed fallback string. Always returns a string. -/
def getAIResponseModel (env : OrchEnv) (timedOut : Bool) : List Char :=
  match (if timedOut then .error (str "AI调用超时60秒")
         else (mainTaskRun env).2 : Except (List Char) (List Char)) with
  | .ok s => s
  | .error _ => fallbackReply

/-! ### Concrete fixtures used by witnesses and counterexamples -/

/-- A 100-tool catalog of which exactly the first 15 match category
`code` (their names contain the keyword `code`; the others avoid every
`code` keyword). -/
def c6Catalog15 : List MCPTool :=
  (List.range 100).map fun i =>
    if i < 15 then ⟨str "code_tool_" ++ natStr i, str "", .null⟩
    else ⟨str "alpha_" ++ natStr i, str "", .null⟩

/-- A 100-tool catalog of which exactly the first 40 match category
`code`. -/
def c6Catalog40 : List MCPTool :=
  (List.range 100).map fun i =>
    if i < 40 then ⟨str "code_tool_" ++ natStr i, str "", .null⟩
    else ⟨str "alpha_" ++ natStr i, str "", .null⟩

/-- The complete SSE payload `\x7b"id":1\x7d` of the C4 failing input. -/
def c4Payload : List Char := str "\x7b\"id\":1\x7d"

/-- Behaviour of `JSON.parse` on the strings occurring in the C4 failing
input: the complete payload parses to a frame with id `1`; every other
string occurring there (the two fragments cut mid-line) is invalid JSON
and throws, i.e. yields `none`. -/
def c4Parse (s : List Char) : Option MCPFrame :=
  if s = c4Payload then some ⟨some (.num 1), none, none⟩ else none

/-- SSE payload `\x7b"id":0\x7d` carrying the present-but-falsy id `0`. -/
def c5Payload : List Char := str "\x7b\"id\":0\x7d"

/-- Behaviour of `JSON.parse` on the C5 stream: the payload parses to a
frame whose id member is present and equal to `0`. -/
def c5Parse (s : List Char) : Option MCPFrame :=
  if s = c5Payload then some ⟨some (.num 0), none, none⟩ else none

/-- Orchestration environment whose first reply carries a tool call with
an arguments string that is not valid JSON (`JSON.parse` throws on
`oops`), while tool invocation and the second model call would succeed. -/
def c8BadEnv : OrchEnv :=
  ⟨str "hi",
   .error (str "discovery down"),
   .ok ⟨some [⟨none, some [⟨str "call_1", str "get_weather", str "oops"⟩]⟩], none⟩,
   fun _ => none,
   .ok .null,
   .ok ⟨some [⟨some (str "done"), none⟩], none⟩⟩

/-- A tool call with the parsable arguments string `\x7b\x7d`. -/
def c8Tc : ToolCall := ⟨str "call_1", str "get_weather", str "\x7b\x7d"⟩

/-- An assistant message carrying exactly the tool call `c8Tc`. -/
def c8Am : ChatMsg := ⟨none, some [c8Tc]⟩

/-- A first-phase response whose only choice is `c8Am`. -/
def c8Resp : AIResponse := ⟨some [c8Am], none⟩

/-- Orchestration environment whose first reply carries one tool call
with the parsable arguments string `\x7b\x7d`, whose tool invocation
fails, and whose second model call answers `all good`. -/
def c8GoodEnv : OrchEnv :=
  ⟨str "hi",
   .error (str "discovery down"),
   .ok c8Resp,
   (fun s => if s = str "\x7b\x7d" then some (.obj []) else none),
   .error (str "boom"),
   .ok ⟨some [⟨some (str "all good"), none⟩], none⟩⟩

/-- Orchestration environment whose first reply carries two tool calls,
the first of which has an unparsable arguments string. -/
def c10BadEnv : OrchEnv :=
  ⟨str "hi",
   .error (str "discovery down"),
   .ok ⟨some [⟨none, some [⟨str "call_1", str "tool_a", str "oops"⟩,
                           ⟨str "call_2", str "tool_b", str "\x7b\x7d"⟩]⟩], none⟩,
   (fun s => if s = str "\x7b\x7d" then some (.obj []) else none),
   .ok .null,
   .ok ⟨some [⟨some (str "done"), none⟩], none⟩⟩

/-- First tool call of the C10 witness environment. -/
def c10Tc1 : ToolCall := ⟨str "call_1", str "tool_a", str "\x7b\x7d"⟩

/-- Second tool call of the C10 witness environment; it is never
invoked. -/
def c10Tc2 : ToolCall := ⟨str "call_2", str "tool_b", str "\x7b\x7d"⟩

/-- An assistant message carrying the two tool calls `c10Tc1, c10Tc2`. -/
def c10Am : ChatMsg := ⟨none, some [c10Tc1, c10Tc2]⟩

/-- A first-phase response whose only choice is `c10Am`. -/
def c10Resp : AIResponse := ⟨some [c10Am], none⟩

/-- Orchestration environment whose first reply carries two tool calls
with parsable arguments on the first one. -/
def c10GoodEnv : OrchEnv :=
  ⟨str "hi",
   .error (str "discovery down"),
   .ok c10Resp,
   (fun s => if s = str "\x7b\x7d" then some (.obj []) else none),
   .ok (.str (str "42")),
   .ok ⟨some [⟨some (str "done"), none⟩], none⟩⟩

/-- Orchestration environment whose very first router call rejects
fatally. -/
def c9Env : OrchEnv :=
  ⟨str "hi",
   .error (str "discovery down"),
   .error (str "模型 ZhipuAI/GLM-4.6 错误: bad request"),
   fun _ => none,
   .ok .null,
   .ok ⟨some [⟨some (str "done"), none⟩], none⟩⟩

/-! ## Theorems

Shared lemmas first, then one theorem per claim (with witnesses and
counterexamples where required). -/

/-- A rate-limit-classified attempt makes the fallback loop advance,
remembering exactly the `contMsg` error. -/
theorem stepModel_continue_of_signal (name : List Char) (o : CallOutcome)
    (h : rateLimitSignal name o = true) :
    stepModel name o = .continueWith (contMsg name o) := by
  cases o with
  | thrown m =>
    simp only [rateLimitSignal] at h
    simp [stepModel, contMsg, h]
  | ok r =>
    cases hre : r.error with
    | none => simp [rateLimitSignal, hre] at h
    | some e =>
      simp only [rateLimitSignal, hre, Bool.or_eq_true] at h
      by_cases hr : respRateLimited e = true
      · simp [stepModel, hre, contMsg, hr]
      · have h2 : catchRateLimited (fatalRespMsg name e.message) = true := by
          rcases h with h | h
          · exact absurd h hr
          · exact h
        simp [stepModel, hre, contMsg, hr, h2]

/-- When every model of a nonempty list is rate-limited, the loop attempts
all of them in order and throws the aggregate error built from the last
remembered cause, whatever `lastError` it started with. -/
theorem run_all_continue :
    ∀ (ms : List (AIModel × CallOutcome)) (h : ms ≠ [])
      (_ : ∀ p ∈ ms, rateLimitSignal p.1.name p.2 = true)
      (acc : Option (List Char)),
    fallbackRun acc ms = (ms.map (fun p => p.1.name),
      .error (exhaustedMsg (some (contMsg (ms.getLast h).1.name (ms.getLast h).2)))) := by
  intro ms
  induction ms with
  | nil => intro h _ _; exact absurd rfl h
  | cons p rest ih =>
    intro h hall acc
    have hp : rateLimitSignal p.1.name p.2 = true := hall p (List.mem_cons_self _ _)
    have hstep := stepModel_continue_of_signal p.1.name p.2 hp
    cases rest with
    | nil =>
      simp [fallbackRun, hstep, List.getLast]
    | cons q rest' =>
      have hne : (q :: rest') ≠ [] := List.cons_ne_nil _ _
      have hall' : ∀ x ∈ (q :: rest'), rateLimitSignal x.1.name x.2 = true :=
        fun x hx => hall x (List.mem_cons_of_mem _ hx)
      have hrec := ih hne hall' (some (contMsg p.1.name p.2))
      have hone : fallbackRun acc (p :: (q :: rest')) =
          (p.1.name :: (fallbackRun (some (contMsg p.1.name p.2)) (q :: rest')).1,
           (fallbackRun (some (contMsg p.1.name p.2)) (q :: rest')).2) := by
        simp [fallbackRun, hstep]
      rw [hone, hrec]
      simp [List.getLast_cons hne]

/-- Crossing a rate-limited prefix, the loop reaches a successful model
and returns its response with the prefix attempts in front. -/
theorem run_pre_success :
    ∀ (pre : List (AIModel × CallOutcome)) (p : AIModel × CallOutcome)
      (rest : List (AIModel × CallOutcome)) (r : AIResponse)
      (acc : Option (List Char)),
      (∀ q ∈ pre, rateLimitSignal q.1.name q.2 = true) →
      stepModel p.1.name p.2 = .success r →
      fallbackRun acc (pre ++ p :: rest) =
        ((pre.map fun q => q.1.name) ++ [p.1.name], .ok r) := by
  intro pre
  induction pre with
  | nil => intro p rest r acc _ hstep; simp [fallbackRun, hstep]
  | cons q pre' ih =>
    intro p rest r acc hall hstep
    have hq := stepModel_continue_of_signal q.1.name q.2 (hall q (List.mem_cons_self _ _))
    have hrec := ih p rest r (some (contMsg q.1.name q.2))
      (fun x hx => hall x (List.mem_cons_of_mem _ hx)) hstep
    simp [fallbackRun, hq, hrec]

/-- Crossing a rate-limited prefix, the loop reaches a fatally failing
model and aborts with exactly that error, attempting nothing further. -/
theorem run_pre_abort :
    ∀ (pre : List (AIModel × CallOutcome)) (p : AIModel × CallOutcome)
      (rest : List (AIModel × CallOutcome)) (m : List Char)
      (acc : Option (List Char)),
      (∀ q ∈ pre, rateLimitSignal q.1.name q.2 = true) →
      stepModel p.1.name p.2 = .abort m →
      fallbackRun acc (pre ++ p :: rest) =
        ((pre.map fun q => q.1.name) ++ [p.1.name], .error m) := by
  intro pre
  induction pre with
  | nil => intro p rest m acc _ hstep; simp [fallbackRun, hstep]
  | cons q pre' ih =>
    intro p rest m acc hall hstep
    have hq := stepModel_continue_of_signal q.1.name q.2 (hall q (List.mem_cons_self _ _))
    have hrec := ih p rest m (some (contMsg q.1.name q.2))
      (fun x hx => hall x (List.mem_cons_of_mem _ hx)) hstep
    simp [fallbackRun, hq, hrec]

/-- One queue step spaces the new dispatch at least `MIN_INTERVAL` after
the previous one. -/
theorem dispatch_spaced (last : Int) (e : SchedEntry)
    (_h1 : last ≤ e.arrival) (h2 : 0 ≤ e.wakeDelay) :
    last + MIN_INTERVAL ≤ dispatchOf last e := by
  unfold dispatchOf MIN_INTERVAL
  rcases le_total ((2000 : Int) - (e.arrival - last)) 0 with hc | hc
  · rw [max_eq_left hc]
    omega
  · rw [max_eq_right hc]
    omega

/-- Under a well-formed schedule the dispatch sequence, preceded by the
initial `lastRequestTime`, is a chain with gaps of at least
`MIN_INTERVAL`. -/
theorem runQueue_chain (es : List SchedEntry) : ∀ (last : Int),
    validSched last es = true →
    List.Chain' (fun a b => a + MIN_INTERVAL ≤ b) (last :: runQueue last es) := by
  induction es with
  | nil => intro last _; simp [runQueue]
  | cons e es' ih =>
    intro last h
    simp only [validSched, Bool.and_eq_true, decide_eq_true_eq] at h
    obtain ⟨⟨h1, h2⟩, h3⟩ := h
    rw [runQueue]
    exact List.chain'_cons.2 ⟨dispatch_spaced last e h1 h2, ih (dispatchOf last e) h3⟩

/-- Every enqueued task receives exactly one dispatch timestamp. -/
theorem runQueue_length (last : Int) (es : List SchedEntry) :
    (runQueue last es).length = es.length := by
  induction es generalizing last with
  | nil => rfl
  | cons e es' ih => simp [runQueue, ih]

/-- The dispatch timestamps do not depend on which tasks reject: the
chain advances through `result.catch(() => {})` either way. -/
theorem runQueue_fails_irrelevant (last : Int) (es : List SchedEntry) :
    runQueue last (es.map fun e => ⟨e.arrival, e.wakeDelay, false⟩) = runQueue last es := by
  induction es generalizing last with
  | nil => rfl
  | cons e es' ih => simp [runQueue, dispatchOf, ih]

/-- C3: under any well-formed event-loop schedule, the request queue
dispatches every enqueued task (one timestamp per task, in enqueue order —
the i-th timestamp belongs to the i-th enqueued task by construction of
the chain), consecutive dispatch timestamps differ by at least
`MIN_INTERVAL` (2000 ms), and the timestamps are unchanged if every task
is made non-failing: a rejecting task does not prevent or delay any
subsequently enqueued task. -/
theorem C3_queue_spacing_order_and_failure_isolation
    (last : Int) (es : List SchedEntry) (h : validSched last es = true) :
    (runQueue last es).length = es.length ∧
    List.Chain' (fun a b => a + MIN_INTERVAL ≤ b) (runQueue last es) ∧
    runQueue last (es.map fun e => ⟨e.arrival, e.wakeDelay, false⟩) = runQueue last es :=
  ⟨runQueue_length last es, (runQueue_chain es last h).tail,
    runQueue_fails_irrelevant last es⟩

/-- Witness for C3 on a three-task schedule (the middle task rejects):
the first task arrives at time 0 and is dispatched at 2000, the second
arrives at 2500 and is dispatched at 4005 after a 1500 ms wait plus a 5 ms
late timer, the third arrives at 9000 and is dispatched immediately. -/
theorem C3_witness :
    validSched 0 [⟨0, 0, false⟩, ⟨2500, 5, true⟩, ⟨9000, 0, false⟩] = true ∧
    ((runQueue 0 [⟨0, 0, false⟩, ⟨2500, 5, true⟩, ⟨9000, 0, false⟩]).length =
        ([⟨0, 0, false⟩, ⟨2500, 5, true⟩, ⟨9000, 0, false⟩] : List SchedEntry).length ∧
      List.Chain' (fun a b => a + MIN_INTERVAL ≤ b)
        (runQueue 0 [⟨0, 0, false⟩, ⟨2500, 5, true⟩, ⟨9000, 0, false⟩]) ∧
      runQueue 0 (([⟨0, 0, false⟩, ⟨2500, 5, true⟩, ⟨9000, 0, false⟩] :
          List SchedEntry).map fun e => ⟨e.arrival, e.wakeDelay, false⟩) =
        runQueue 0 [⟨0, 0, false⟩, ⟨2500, 5, true⟩, ⟨9000, 0, false⟩]) :=
  ⟨by decide,
    C3_queue_spacing_order_and_failure_isolation 0
      [⟨0, 0, false⟩, ⟨2500, 5, true⟩, ⟨9000, 0, false⟩] (by decide)⟩

/-- C1: for every nonempty priority-ordered model list (each model paired
with the outcome its call would have), if every attempt reports a
rate-limit signal (HTTP 429 text, error code `1302`, or rate-limit wording
in the error message), `callAIWithFallback`'s loop attempts exactly the
whole list, one attempt per model in order, and then throws the aggregate
error `所有AI模型都不可用。最后错误: …` naming the last remembered
rate-limit cause. -/
theorem C1_all_rate_limited_exhausts_in_order
    (ms : List (AIModel × CallOutcome)) (h : ms ≠ [])
    (hall : ∀ p ∈ ms, rateLimitSignal p.1.name p.2 = true) :
    fallbackRun none ms = (ms.map (fun p => p.1.name),
      .error (exhaustedMsg (some (contMsg (ms.getLast h).1.name (ms.getLast h).2)))) :=
  run_all_continue ms h hall none

/-- Witness for C1 at a concrete two-model list: one model throws an HTTP
429 error, the next answers with a `并发` (concurrency) response error. -/
theorem C1_witness :
    ([(⟨str "ZhipuAI/GLM-4.6", 1⟩, CallOutcome.thrown (str "AI API错误 (429): busy")),
      (⟨str "ZhipuAI/GLM-4.5", 2⟩,
        CallOutcome.ok ⟨none, some ⟨str "检测到并发请求", none⟩⟩)]
      : List (AIModel × CallOutcome)) ≠ [] ∧
    (∀ p ∈ ([(⟨str "ZhipuAI/GLM-4.6", 1⟩, CallOutcome.thrown (str "AI API错误 (429): busy")),
      (⟨str "ZhipuAI/GLM-4.5", 2⟩,
        CallOutcome.ok ⟨none, some ⟨str "检测到并发请求", none⟩⟩)]
      : List (AIModel × CallOutcome)), rateLimitSignal p.1.name p.2 = true) ∧
    fallbackRun none
      ([(⟨str "ZhipuAI/GLM-4.6", 1⟩, CallOutcome.thrown (str "AI API错误 (429): busy")),
        (⟨str "ZhipuAI/GLM-4.5", 2⟩,
          CallOutcome.ok ⟨none, some ⟨str "检测到并发请求", none⟩⟩)]
        : List (AIModel × CallOutcome)) =
      ([str "ZhipuAI/GLM-4.6", str "ZhipuAI/GLM-4.5"],
        .error (exhaustedMsg (some (str "模型 ZhipuAI/GLM-4.5 限流: 检测到并发请求")))) :=
  ⟨by simp, by decide,
    by
      have := C1_all_rate_limited_exhausts_in_order
        ([(⟨str "ZhipuAI/GLM-4.6", 1⟩, CallOutcome.thrown (str "AI API错误 (429): busy")),
          (⟨str "ZhipuAI/GLM-4.5", 2⟩,
            CallOutcome.ok ⟨none, some ⟨str "检测到并发请求", none⟩⟩)])
        (by simp) (by decide)
      simpa [contMsg, limitRespMsg, respRateLimited, str] using this⟩

/-- C2: first, if the model at position `k` succeeds (its call returns a
response with no `error` member) and every model before it was
rate-limited, the loop makes exactly `k` attempts and returns that model's
response unchanged; second, if an attempt fails fatally (non-rate-limit),
the loop aborts at once with that very error and tries no further model. -/
theorem C2_success_after_rate_limits_and_fatal_aborts :
    (∀ (pre : List (AIModel × CallOutcome)) (p : AIModel × CallOutcome)
       (rest : List (AIModel × CallOutcome)) (r : AIResponse),
       (∀ q ∈ pre, rateLimitSignal q.1.name q.2 = true) →
       p.2 = CallOutcome.ok r → r.error = none →
       fallbackRun none (pre ++ p :: rest) =
         ((pre.map fun q => q.1.name) ++ [p.1.name], .ok r)) ∧
    (∀ (pre : List (AIModel × CallOutcome)) (p : AIModel × CallOutcome)
       (rest : List (AIModel × CallOutcome)) (m : List Char),
       (∀ q ∈ pre, rateLimitSignal q.1.name q.2 = true) →
       stepModel p.1.name p.2 = .abort m →
       fallbackRun none (pre ++ p :: rest) =
         ((pre.map fun q => q.1.name) ++ [p.1.name], .error m)) := by
  constructor
  · intro pre p rest r hall hok herr
    have hstep : stepModel p.1.name p.2 = .success r := by
      rw [hok]; simp [stepModel, herr]
    exact run_pre_success pre p rest r none hall hstep
  · intro pre p rest m hall hstep
    exact run_pre_abort pre p rest m none hall hstep

/-- Witness for C2: a rate-limited first model followed by a succeeding
second model yields two attempts and the second response unchanged; and a
first model with a fatal error aborts before a healthy second model. -/
theorem C2_witness :
    (fallbackRun none
      ([(⟨str "ZhipuAI/GLM-4.6", 1⟩, CallOutcome.thrown (str "AI API错误 (429): busy")),
        (⟨str "ZhipuAI/GLM-4.5", 2⟩,
          CallOutcome.ok ⟨some [⟨some (str "hello"), none⟩], none⟩)]
        : List (AIModel × CallOutcome)) =
      ([str "ZhipuAI/GLM-4.6", str "ZhipuAI/GLM-4.5"],
        .ok ⟨some [⟨some (str "hello"), none⟩], none⟩)) ∧
    (fallbackRun none
      ([(⟨str "ZhipuAI/GLM-4.6", 1⟩, CallOutcome.thrown (str "ECONNREFUSED")),
        (⟨str "ZhipuAI/GLM-4.5", 2⟩,
          CallOutcome.ok ⟨some [⟨some (str "hello"), none⟩], none⟩)]
        : List (AIModel × CallOutcome)) =
      ([str "ZhipuAI/GLM-4.6"], .error (str "ECONNREFUSED"))) := by
  constructor
  · have := C2_success_after_rate_limits_and_fatal_aborts.1
      [(⟨str "ZhipuAI/GLM-4.6", 1⟩, CallOutcome.thrown (str "AI API错误 (429): busy"))]
      (⟨str "ZhipuAI/GLM-4.5", 2⟩,
        CallOutcome.ok ⟨some [⟨some (str "hello"), none⟩], none⟩)
      [] ⟨some [⟨some (str "hello"), none⟩], none⟩
      (by decide) rfl rfl
    simpa using this
  · have := C2_success_after_rate_limits_and_fatal_aborts.2
      [] (⟨str "ZhipuAI/GLM-4.6", 1⟩, CallOutcome.thrown (str "ECONNREFUSED"))
      [(⟨str "ZhipuAI/GLM-4.5", 2⟩,
        CallOutcome.ok ⟨some [⟨some (str "hello"), none⟩], none⟩)]
      (str "ECONNREFUSED")
      (by simp) (by decide)
    simpa using this

/-- C4 (refuting the claim as stated — the code drops frames split across
chunk boundaries): the very same bytes `data: \x7b"id":1\x7d\n` decode to
the id-1 response frame when they arrive in one chunk, but decode to
nothing when they arrive in two chunks cut in the middle of the line,
because the loop splits each chunk on newlines separately and keeps no
carry-over buffer. `c4Parse` is `JSON.parse`'s behaviour on the payload
strings that occur. -/
theorem C4_split_frame_lost :
    str "data: \x7b\"id" ++ str "\":1\x7d\n" = str "data: \x7b\"id\":1\x7d\n" ∧
    sseDecode c4Parse (JVal.num 1) [str "data: \x7b\"id\":1\x7d\n"] =
      some ⟨some (JVal.num 1), none, none⟩ ∧
    sseDecode c4Parse (JVal.num 1) [str "data: \x7b\"id", str "\":1\x7d\n"] = none :=
  ⟨rfl, rfl, rfl⟩

/-- C5 (refuting the claim as stated — a present-but-falsy id is
accepted): with pending request id `1`, the frame `\x7b"id":0\x7d` carries
a present id `0` that is not strictly equal to `1`, yet
`!parsed.id || parsed.id === request.id` accepts it, and the decode loop
returns it as the matched result; a frame with no id at all is accepted
too, as the claim says. -/
theorem C5_falsy_id_accepted :
    jsStrictEq (JVal.num 0) (JVal.num 1) = false ∧
    sseIdMatches (some (JVal.num 0)) (JVal.num 1) = true ∧
    sseDecode c5Parse (JVal.num 1) [str "data: \x7b\"id\":0\x7d\n"] =
      some ⟨some (JVal.num 0), none, none⟩ ∧
    sseIdMatches none (JVal.num 1) = true :=
  ⟨rfl, rfl, rfl, rfl⟩

/-- C6: `filterTools` returns the catalog's first 50 entries whenever
fewer than 20 tools match a keyword of a selected category, and otherwise
the matching tools in catalog order capped at 60; in particular a 100-tool
catalog with exactly 15 `code` matches yields the first 50 tools of the
whole catalog (not the 15 matches), and one with exactly 40 matches yields
exactly those 40. -/
theorem C6_filter_fallback_and_cap :
    (∀ (tools : List MCPTool) (categories : List (List Char)),
      filterTools tools categories =
        if (tools.filter (toolMatchesCats categories)).length < 20 then tools.take 50
        else (tools.filter (toolMatchesCats categories)).take 60) ∧
    ((c6Catalog15.filter (toolMatchesCats [str "code"])).length = 15 ∧
      filterTools c6Catalog15 [str "code"] = c6Catalog15.take 50) ∧
    ((c6Catalog40.filter (toolMatchesCats [str "code"])).length = 40 ∧
      filterTools c6Catalog40 [str "code"] =
        c6Catalog40.filter (toolMatchesCats [str "code"])) :=
  ⟨fun _ _ => rfl, ⟨rfl, rfl⟩, ⟨rfl, rfl⟩⟩

/-- C7: whatever the transport does — the 30-second timeout fires, the
POST (or its GET fallback) rejects, an HTTP error status arrives, the
response body is unreadable, the stream ends without an accepted frame, or
the matched response carries an RPC-level `error` — `listTools` returns
the empty catalog instead of propagating the failure. -/
theorem C7_discovery_failure_empty_catalog
    (parse : List Char → Option MCPFrame) (reqId : JVal)
    (post get : FetchOutcome) (timedOut : Bool)
    (h : timedOut = true ∨
      (∃ m, pickResponse post get = .netError m) ∨
      (∃ st stx b, pickResponse post get = .response st stx b ∧ fetchOk st = false) ∨
      (∃ st stx, pickResponse post get = .response st stx none) ∨
      (∃ st stx chunks, pickResponse post get = .response st stx (some chunks) ∧
        sseDecode parse reqId chunks = none) ∨
      (∃ f e, sendRequestModel parse reqId post get timedOut = .ok f ∧
        f.error = some e)) :
    listToolsModel (sendRequestModel parse reqId post get timedOut) = [] := by
  by_cases ht : timedOut
  · simp [sendRequestModel, ht, listToolsModel]
  · rcases h with h | ⟨m, hm⟩ | ⟨st, stx, b, hr, hok⟩ | ⟨st, stx, hr⟩ |
      ⟨st, stx, chunks, hr, hd⟩ | ⟨f, e, hf, he⟩
    · exact absurd h ht
    · simp [sendRequestModel, ht, sendRequestCore, hm, listToolsModel]
    · simp [sendRequestModel, ht, sendRequestCore, hr, hok, listToolsModel]
    · by_cases hok : fetchOk st
      · simp [sendRequestModel, ht, sendRequestCore, hr, hok, listToolsModel]
      · simp [sendRequestModel, ht, sendRequestCore, hr, hok, listToolsModel]
    · by_cases hok : fetchOk st
      · simp [sendRequestModel, ht, sendRequestCore, hr, hok, hd, listToolsModel]
      · simp [sendRequestModel, ht, sendRequestCore, hr, hok, listToolsModel]
    · rw [hf]
      simp [listToolsModel, he]

/-- Witness for C7: a POST answered with HTTP 500 (no readable body) makes
`listTools` return the empty catalog. -/
theorem C7_witness :
    ((false : Bool) = true ∨
      (∃ m, pickResponse (.response 500 (str "Internal Server Error") none)
        (.response 200 (str "OK") none) = .netError m) ∨
      (∃ st stx b, pickResponse (.response 500 (str "Internal Server Error") none)
        (.response 200 (str "OK") none) = .response st stx b ∧ fetchOk st = false) ∨
      (∃ st stx, pickResponse (.response 500 (str "Internal Server Error") none)
        (.response 200 (str "OK") none) = .response st stx none) ∨
      (∃ st stx chunks, pickResponse (.response 500 (str "Internal Server Error") none)
        (.response 200 (str "OK") none) = .response st stx (some chunks) ∧
        sseDecode c4Parse (JVal.num 7) chunks = none) ∨
      (∃ f e, sendRequestModel c4Parse (JVal.num 7)
        (.response 500 (str "Internal Server Error") none)
        (.response 200 (str "OK") none) false = .ok f ∧ f.error = some e)) ∧
    listToolsModel (sendRequestModel c4Parse (JVal.num 7)
      (.response 500 (str "Internal Server Error") none)
      (.response 200 (str "OK") none) false) = [] :=
  ⟨Or.inr (Or.inr (Or.inl ⟨500, str "Internal Server Error", none, rfl, rfl⟩)),
    C7_discovery_failure_empty_catalog c4Parse (JVal.num 7)
      (.response 500 (str "Internal Server Error") none)
      (.response 200 (str "OK") none) false
      (Or.inr (Or.inr (Or.inl ⟨500, str "Internal Server Error", none, rfl, rfl⟩)))⟩

/-- C8 (amended): when the first reply carries a tool call whose arguments
string parses as JSON, the orchestrator invokes exactly that tool, builds
the second request `[user message, assistant tool-call turn, tool turn
with the result or the structured error payload]` whether the invocation
succeeded or failed, and the final outcome is exactly the second phase's:
the second reply's text, or — on any rejection — the fixed fallback
string, never a thrown tool error. -/
theorem C8_tool_roundtrip (env : OrchEnv) (data : AIResponse) (am : ChatMsg)
    (tc : ToolCall) (tcs : List ToolCall) (args : JVal)
    (h1 : env.firstOutcome = .ok data)
    (h2 : headMsg data = some am)
    (h3 : am.tool_calls = some (tc :: tcs))
    (h4 : env.parseArgs tc.fnArguments = some args) :
    (mainTaskRun env).1.invoked = [(tc.fnName, args)] ∧
    (mainTaskRun env).1.secondBody = some (secondBodyOf env.userMessage am tc
      (toolResultOf env.toolOutcome)
      (simplifyTools (filterTools (listToolsModel env.listOutcome)
        (selectToolCategory env.userMessage)))) ∧
    (mainTaskRun env).2 = secondPhase env.secondOutcome ∧
    getAIResponseModel env false =
      (match secondPhase env.secondOutcome with
       | .ok s => s
       | .error _ => fallbackReply) := by
  have h5 : (mainTaskRun env).2 = secondPhase env.secondOutcome := by
    simp [mainTaskRun, h1, h2, h3, h4]
  refine ⟨by simp [mainTaskRun, h1, h2, h3, h4],
          by simp [mainTaskRun, h1, h2, h3, h4], h5, ?_⟩
  cases hsp : secondPhase env.secondOutcome with
  | ok s => simp [getAIResponseModel, h5, hsp]
  | error e => simp [getAIResponseModel, h5, hsp]

/-- Witness for C8 at `c8GoodEnv`: the reply carries the tool call `c8Tc`
with parsable arguments, the tool invocation fails, and the theorem
applies: the tool is invoked, the second request carries the structured
error payload, and the final reply is the second model reply. -/
theorem C8_witness :
    (c8GoodEnv.firstOutcome = .ok c8Resp ∧ headMsg c8Resp = some c8Am ∧
      c8Am.tool_calls = some [c8Tc] ∧
      c8GoodEnv.parseArgs c8Tc.fnArguments = some (.obj [])) ∧
    ((mainTaskRun c8GoodEnv).1.invoked = [(c8Tc.fnName, JVal.obj [])] ∧
      (mainTaskRun c8GoodEnv).1.secondBody =
        some (secondBodyOf c8GoodEnv.userMessage c8Am c8Tc
          (toolResultOf c8GoodEnv.toolOutcome)
          (simplifyTools (filterTools (listToolsModel c8GoodEnv.listOutcome)
            (selectToolCategory c8GoodEnv.userMessage)))) ∧
      (mainTaskRun c8GoodEnv).2 = secondPhase c8GoodEnv.secondOutcome ∧
      getAIResponseModel c8GoodEnv false =
        (match secondPhase c8GoodEnv.secondOutcome with
         | .ok s => s
         | .error _ => fallbackReply)) :=
  ⟨⟨rfl, rfl, rfl, rfl⟩,
    C8_tool_roundtrip c8GoodEnv c8Resp c8Am c8Tc [] (JVal.obj []) rfl rfl rfl rfl⟩

/-- C8 counterexample to the claim as stated: the first reply of
`c8BadEnv` does carry a tool-invocation intent (one tool call, name
`get_weather`), but its arguments string `oops` is not valid JSON, so
`JSON.parse` — which runs outside the tool try/catch — rejects the whole
task: no tool is invoked, no second request is submitted, and the caller
receives the fallback string. -/
theorem C8_counterexample :
    c8BadEnv.firstOutcome =
      .ok ⟨some [⟨none, some [⟨str "call_1", str "get_weather", str "oops"⟩]⟩], none⟩ ∧
    (mainTaskRun c8BadEnv).1.invoked = [] ∧
    (mainTaskRun c8BadEnv).1.secondBody = none ∧
    getAIResponseModel c8BadEnv false = fallbackReply :=
  ⟨rfl, rfl, rfl, rfl⟩

/-- C9: `getAIResponse` always returns a plain string: whenever the outer
60-second race times out, or the orchestration rejects with any error, the
caller receives exactly the fixed fallback string; and in every case the
result is either that fallback string or the successfully produced reply
text — never an exception and never raw internal error text. -/
theorem C9_timeout_and_errors_become_fallback (env : OrchEnv) (timedOut : Bool) :
    ((timedOut = true ∨ ∃ e, (mainTaskRun env).2 = Except.error e) →
      getAIResponseModel env timedOut = fallbackReply) ∧
    (getAIResponseModel env timedOut = fallbackReply ∨
      ∃ s, (mainTaskRun env).2 = Except.ok s ∧ getAIResponseModel env timedOut = s) := by
  constructor
  · rintro (h | ⟨e, he⟩)
    · subst h
      simp [getAIResponseModel]
    · by_cases ht : timedOut <;> simp [getAIResponseModel, ht, he]
  · by_cases ht : timedOut
    · left
      simp [getAIResponseModel, ht]
    · cases hmt : (mainTaskRun env).2 with
      | ok s => right; exact ⟨s, rfl, by simp [getAIResponseModel, ht, hmt]⟩
      | error e => left; simp [getAIResponseModel, ht, hmt]

/-- Witness for C9: with the timeout winning the race over `c9Env` (whose
first router call also rejects fatally), the caller gets the fallback
string. -/
theorem C9_witness :
    ((true : Bool) = true ∨ ∃ e, (mainTaskRun c9Env).2 = Except.error e) ∧
    getAIResponseModel c9Env true = fallbackReply ∧
    (getAIResponseModel c9Env true = fallbackReply ∨
      ∃ s, (mainTaskRun c9Env).2 = Except.ok s ∧ getAIResponseModel c9Env true = s) :=
  ⟨Or.inl rfl,
    (C9_timeout_and_errors_become_fallback c9Env true).1 (Or.inl rfl),
    (C9_timeout_and_errors_become_fallback c9Env true).2⟩

/-- C10 (amended): when the first reply carries two or more tool calls and
the first one's arguments string parses as JSON, exactly one tool — the
first — is invoked; the second request's tool turn is the only message
carrying a `tool_call_id`, namely the first call's id, while its assistant
turn echoes the full `tool_calls` array. -/
theorem C10_only_first_tool_invoked (env : OrchEnv) (data : AIResponse) (am : ChatMsg)
    (tc tc2 : ToolCall) (tcs : List ToolCall) (args : JVal)
    (h1 : env.firstOutcome = .ok data)
    (h2 : headMsg data = some am)
    (h3 : am.tool_calls = some (tc :: tc2 :: tcs))
    (h4 : env.parseArgs tc.fnArguments = some args) :
    (mainTaskRun env).1.invoked = [(tc.fnName, args)] ∧
    ((mainTaskRun env).1.secondBody.map fun b => b.messages.map ReqMsg.tool_call_id) =
      some [none, none, some tc.id] ∧
    ((mainTaskRun env).1.secondBody.map fun b => b.messages.map ReqMsg.tool_calls) =
      some [none, some (tc :: tc2 :: tcs), none] := by
  refine ⟨by simp [mainTaskRun, h1, h2, h3, h4], ?_, ?_⟩ <;>
    simp [mainTaskRun, h1, h2, h3, h4, secondBodyOf, userMsg, assistantEcho, toolMsg]

/-- Witness for C10 at `c10GoodEnv`: two tool calls arrive, only
`tool_a` is invoked, the tool turn carries `call_1`, and the assistant
turn echoes both calls. -/
theorem C10_witness :
    (c10GoodEnv.firstOutcome = .ok c10Resp ∧ headMsg c10Resp = some c10Am ∧
      c10Am.tool_calls = some [c10Tc1, c10Tc2] ∧
      c10GoodEnv.parseArgs c10Tc1.fnArguments = some (.obj [])) ∧
    ((mainTaskRun c10GoodEnv).1.invoked = [(c10Tc1.fnName, JVal.obj [])] ∧
      ((mainTaskRun c10GoodEnv).1.secondBody.map
        fun b => b.messages.map ReqMsg.tool_call_id) = some [none, none, some c10Tc1.id] ∧
      ((mainTaskRun c10GoodEnv).1.secondBody.map
        fun b => b.messages.map ReqMsg.tool_calls) =
        some [none, some [c10Tc1, c10Tc2], none]) :=
  ⟨⟨rfl, rfl, rfl, rfl⟩,
    C10_only_first_tool_invoked c10GoodEnv c10Resp c10Am c10Tc1 c10Tc2 []
      (JVal.obj []) rfl rfl rfl rfl⟩

/-- C10 counterexample to the claim as stated: the first reply of
`c10BadEnv` carries two tool calls, but the first call's arguments string
`oops` is not valid JSON, so zero tools are invoked (not exactly one) and
no second request is submitted. -/
theorem C10_counterexample :
    c10BadEnv.firstOutcome =
      .ok ⟨some [⟨none, some [⟨str "call_1", str "tool_a", str "oops"⟩,
                              ⟨str "call_2", str "tool_b", str "\x7b\x7d"⟩]⟩], none⟩ ∧
    (mainTaskRun c10BadEnv).1.invoked = [] ∧
    (mainTaskRun c10BadEnv).1.secondBody = none :=
  ⟨rfl, rfl, rfl⟩

end Bot
